import Mathlib

/-!
Verification of the VoteFight repository specification.

The repository ships a React/Next.js frontend: mock data, a mock API
client, thin CRUD service wrappers and polling hooks. The vote ledger
and the trending engine described by the specification have no
implementation under the source tree (the dev mock vote endpoint
returns success unconditionally), so those two components are modelled
here from the words of the specification, as marked on each
definition. Everything else (mock data, mock client routing, service
wrappers, hook timers) is translated directly from the source files.
-/

/-! ## Part 1: Vote Ledger and Fraud Guard (modelled from the spec) -/

/-- Modelled from the spec: the voter identity triple
(IP, fingerprint hash, session id) carried by a vote attempt.
The ledger itself is absent from the source tree. -/
structure VoterIdentity where
  ip : String
  fingerprint : String
  sessionId : String
deriving DecidableEq, Repr

/-- Modelled from the spec: the slice of a Battle the ledger reads —
identifier, active flag and optional deadline. -/
structure LBattle where
  id : Nat
  isActive : Bool
  deadline : Option Nat
deriving DecidableEq, Repr

/-- Modelled from the spec: an Element belongs to exactly one Battle. -/
structure LElement where
  id : Nat
  battleId : Nat
deriving DecidableEq, Repr

/-- Modelled from the spec: an immutable accepted-vote fact. -/
structure VoteEvent where
  battleId : Nat
  elementId : Nat
  ip : String
  fingerprint : String
  timestamp : Nat
deriving DecidableEq, Repr

/-- Modelled from the spec: one recorded vote attempt
(accepted or rejected), used by the RateLimitWindow. -/
structure AttemptRec where
  ip : String
  fingerprint : String
  timestamp : Nat
deriving DecidableEq, Repr

/-- Modelled from the spec error taxonomy: the rejection reasons the
ledger can return (Busy is a lock timeout and does not arise in the
serialized model). -/
inductive RejectReason where
  | battleClosed
  | invalidElement
  | duplicateVote
  | rateLimited
deriving DecidableEq, Repr

/-- Modelled from the spec: the typed result of a vote attempt. -/
inductive VoteResult where
  | accepted
  | rejected (reason : RejectReason)
deriving DecidableEq, Repr

/-- Modelled from the spec: ledger state — the append-only VoteEvent
log plus the recorded attempts backing the RateLimitWindow. -/
structure LedgerState where
  events : List VoteEvent
  attempts : List AttemptRec
deriving DecidableEq, Repr

/-- The empty ledger: no accepted events, no recorded attempts. -/
def emptyLedger : LedgerState := ⟨[], []⟩

/-- Modelled from the spec configuration surface: rate limit of
`limitN` attempts per rolling window of `windowW` time units. -/
structure LedgerConfig where
  limitN : Nat
  windowW : Nat
deriving DecidableEq, Repr

/-- The spec defaults: N = 20 attempts, W = 60 seconds. -/
def defaultLedgerConfig : LedgerConfig := ⟨20, 60⟩

/-- Modelled from the spec: `battle_id` must reference an active battle
whose deadline (if any) has not passed. -/
def battleOpen (battles : List LBattle) (battleId t : Nat) : Bool :=
  battles.any fun b =>
    b.id == battleId && b.isActive &&
      (match b.deadline with
       | none => true
       | some d => decide (t < d))

/-- Modelled from the spec: `element_id` must belong to `battle_id`. -/
def elementBelongs (elements : List LElement) (elementId battleId : Nat) : Bool :=
  elements.any fun e => e.id == elementId && e.battleId == battleId

/-- Modelled from the spec: an accepted VoteEvent with the same
(battle_id, IP, fingerprint) already exists. -/
def isDuplicate (events : List VoteEvent) (battleId : Nat) (ip fp : String) : Bool :=
  events.any fun ev => ev.battleId == battleId && ev.ip == ip && ev.fingerprint == fp

/-- Modelled from the spec: a past attempt at `ts` falls inside the
rolling window ending at `now`. -/
def inWindow (cfg : LedgerConfig) (now ts : Nat) : Bool :=
  decide (now < ts + cfg.windowW)

/-- Attempts inside the window from the given IP. -/
def ipAttemptCount (cfg : LedgerConfig) (attempts : List AttemptRec)
    (ip : String) (now : Nat) : Nat :=
  (attempts.filter fun a => a.ip == ip && inWindow cfg now a.timestamp).length

/-- Attempts inside the window from the given fingerprint. -/
def fpAttemptCount (cfg : LedgerConfig) (attempts : List AttemptRec)
    (fp : String) (now : Nat) : Nat :=
  (attempts.filter fun a => a.fingerprint == fp && inWindow cfg now a.timestamp).length

/-- Modelled from the spec: the RateLimitWindow check for IP and for
fingerprint independently; an empty fingerprint is a low-trust identity
rate-limited by IP alone. -/
def rateLimited (cfg : LedgerConfig) (attempts : List AttemptRec)
    (ip fp : String) (now : Nat) : Bool :=
  decide (cfg.limitN ≤ ipAttemptCount cfg attempts ip now) ||
    (fp != "" && decide (cfg.limitN ≤ fpAttemptCount cfg attempts fp now))

/-- Modelled from the spec algorithm of `submit_vote`: validate the
battle and the element, then (step 1) reject a duplicate
(battle_id, IP, fingerprint), then (step 2) apply the rate limit, and
on success append the VoteEvent. Every attempt, accepted or rejected,
is recorded for the RateLimitWindow. The per-key atomicity demanded by
the spec makes concurrent executions equivalent to this sequential
function, which is how concurrency claims are stated below. -/
def submitVote (cfg : LedgerConfig) (battles : List LBattle)
    (elements : List LElement) (st : LedgerState)
    (battleId elementId : Nat) (vid : VoterIdentity) (t : Nat) :
    VoteResult × LedgerState :=
  let recorded : List AttemptRec := st.attempts ++ [⟨vid.ip, vid.fingerprint, t⟩]
  if battleOpen battles battleId t = false then
    (.rejected .battleClosed, ⟨st.events, recorded⟩)
  else if elementBelongs elements elementId battleId = false then
    (.rejected .invalidElement, ⟨st.events, recorded⟩)
  else if isDuplicate st.events battleId vid.ip vid.fingerprint = true then
    (.rejected .duplicateVote, ⟨st.events, recorded⟩)
  else if rateLimited cfg st.attempts vid.ip vid.fingerprint t = true then
    (.rejected .rateLimited, ⟨st.events, recorded⟩)
  else
    (.accepted,
      ⟨st.events ++ [⟨battleId, elementId, vid.ip, vid.fingerprint, t⟩], recorded⟩)

/-- One queued vote submission. -/
structure SubmitReq where
  battleId : Nat
  elementId : Nat
  vid : VoterIdentity
  timestamp : Nat
deriving DecidableEq, Repr

/-- Run a sequence of submissions, returning the final ledger state. -/
def runSubmissions (cfg : LedgerConfig) (battles : List LBattle)
    (elements : List LElement) : List SubmitReq → LedgerState → LedgerState
  | [], st => st
  | r :: rs, st =>
      runSubmissions cfg battles elements rs
        (submitVote cfg battles elements st r.battleId r.elementId r.vid r.timestamp).2

/-- Run a sequence of submissions, returning the result of each. -/
def runResults (cfg : LedgerConfig) (battles : List LBattle)
    (elements : List LElement) : List SubmitReq → LedgerState → List VoteResult
  | [], _ => []
  | r :: rs, st =>
      let step := submitVote cfg battles elements st r.battleId r.elementId r.vid r.timestamp
      step.1 :: runResults cfg battles elements rs step.2

/-- The ledger invariant of the spec: at most one accepted VoteEvent
per (battle_id, voter_ip, fingerprint). -/
def uniqueVoteKeys (events : List VoteEvent) : Prop :=
  events.Pairwise fun a b =>
    ¬(a.battleId = b.battleId ∧ a.ip = b.ip ∧ a.fingerprint = b.fingerprint)

/-! ## Part 2: Trending/Ranking Engine tick (modelled from the spec) -/

/-- Modelled from the spec configuration surface: the six scoring
weights and the per-tick time decay factor. -/
structure EngineConfig where
  w1 : ℚ
  w2 : ℚ
  w3 : ℚ
  w4 : ℚ
  w5 : ℚ
  w6 : ℚ
  timeDecayFactor : ℚ
deriving DecidableEq, Repr

/-- Modelled from the spec: the per-battle input of one scoring tick —
how many new vote and engagement events arrived since the last tick,
plus the six signal values used by the full recompute path. -/
structure TickInput where
  voteEvents : Nat
  engagementEvents : Nat
  voteVelocity : ℚ
  engagementRate : ℚ
  recencyScore : ℚ
  creatorQuality : ℚ
  categoryPopularity : ℚ
  socialSignal : ℚ
deriving DecidableEq, Repr

/-- Modelled from the spec score formula:
score = w1*vote_velocity + w2*engagement_rate + w3*recency_score
      + w4*creator_quality + w5*category_popularity + w6*social_signal. -/
def fullScore (cfg : EngineConfig) (inp : TickInput) : ℚ :=
  cfg.w1 * inp.voteVelocity + cfg.w2 * inp.engagementRate +
    cfg.w3 * inp.recencyScore + cfg.w4 * inp.creatorQuality +
    cfg.w5 * inp.categoryPopularity + cfg.w6 * inp.socialSignal

/-- Modelled from the spec tick: for a battle with zero new events only
the time decay factor is applied to the previous score (cheap path);
otherwise the score is fully recomputed and then decayed. The returned
flag records whether the full recompute path ran. -/
def engineTick (cfg : EngineConfig) (score : ℚ) (inp : TickInput) : ℚ × Bool :=
  if inp.voteEvents = 0 ∧ inp.engagementEvents = 0 then
    (score * cfg.timeDecayFactor, false)
  else
    (fullScore cfg inp * cfg.timeDecayFactor, true)

/-- Run a sequence of ticks, returning the final score and, per tick,
whether the full recompute path ran. -/
def runTicks (cfg : EngineConfig) : ℚ → List TickInput → ℚ × List Bool
  | s, [] => (s, [])
  | s, inp :: rest =>
      let step := engineTick cfg s inp
      let tail := runTicks cfg step.1 rest
      (tail.1, step.2 :: tail.2)

/-! ## Part 3: Mock data (translated from the mock data module)

The presentational string fields (title, description, media, creator,
engagement_stats) are elided; the fields the claims read — identifier,
category, vote totals, creation timestamp, active flag, trending score
and the per-viewer voted flag — are kept verbatim. -/

/-- A battle record as shipped in the mock data module. -/
structure MockBattle where
  id : String
  category : String
  totalVotes : Nat
  createdAt : String
  isActive : Bool
  trendingScore : ℚ
  userVoted : Bool
  userVoteElement : Option String
deriving DecidableEq, Repr

/-- mockBattles[0]: iPhone vs Samsung. -/
def battleRec1 : MockBattle :=
  ⟨"1", "technology", 1250, "2024-01-20T14:30:00Z", true, 85.5, false, none⟩

/-- mockBattles[1]: Coca-Cola vs Pepsi. -/
def battleRec2 : MockBattle :=
  ⟨"2", "food", 890, "2024-01-19T16:45:00Z", true, 72.3, true, some "3"⟩

/-- mockBattles[2]: Netflix vs Disney+. -/
def battleRec3 : MockBattle :=
  ⟨"3", "entertainment", 2100, "2024-01-18T12:20:00Z", true, 91.2, false, none⟩

/-- mockBattles[3]: Pizza vs Burger. -/
def battleRec4 : MockBattle :=
  ⟨"4", "food", 650, "2024-01-17T09:15:00Z", true, 58.7, true, some "7"⟩

/-- mockBattles[4]: Tesla vs BMW. -/
def battleRec5 : MockBattle :=
  ⟨"5", "technology", 1800, "2024-01-16T11:30:00Z", true, 88.9, false, none⟩

/-- The mockBattles array. -/
def mockBattlesList : List MockBattle :=
  [battleRec1, battleRec2, battleRec3, battleRec4, battleRec5]

/-- mockTrendingBattles, in its hand-written order. -/
def mockTrendingList : List MockBattle :=
  [battleRec3, battleRec1, battleRec5, battleRec2, battleRec4]

/-- mockPersonalizedBattles. -/
def mockPersonalizedList : List MockBattle :=
  [battleRec1, battleRec3, battleRec5]

/-- mockQuickPicksBattles. -/
def mockQuickPicksList : List MockBattle :=
  [battleRec4, battleRec2, battleRec1]

/-- A user record as shipped in the mock data module (presentational
fields elided). -/
structure MockUser where
  id : String
  username : String
  email : String
deriving DecidableEq, Repr

/-- The mockUsers array. -/
def mockUsersList : List MockUser :=
  [⟨"1", "testuser", "test@example.com"⟩,
   ⟨"2", "battlemaster", "battle@example.com"⟩]

/-! ## Part 4: JavaScript value semantics and the mock API client

The mock client routes on expressions such as
`url.includes(x) && !url.includes(x) + y`, whose value depends on the
JavaScript coercion rules for `!`, `+` and `&&`; those rules are
embedded below so the routing can be analysed as written. -/

/-- A JavaScript primitive value as it occurs in the routing
conditions: a boolean or a string. -/
inductive JsPrim where
  | pBool (b : Bool)
  | pStr (s : String)
deriving DecidableEq, Repr

/-- JavaScript truthiness: false and the empty string are falsy. -/
def jsTruthy : JsPrim → Bool
  | .pBool b => b
  | .pStr s => s != ""

/-- JavaScript string coercion of a boolean. -/
def jsBoolStr (b : Bool) : String := if b then "true" else "false"

/-- The JavaScript `+` operator on the prim values that occur here:
when either side is a string the other side is coerced and the two are
concatenated; two booleans add as numbers, returned here as their
string form only when a string is involved. -/
def jsAdd : JsPrim → JsPrim → JsPrim
  | .pStr a, .pStr b => .pStr (a ++ b)
  | .pBool a, .pStr b => .pStr (jsBoolStr a ++ b)
  | .pStr a, .pBool b => .pStr (a ++ jsBoolStr b)
  | .pBool a, .pBool b => .pBool (a || b)

/-- The JavaScript `&&` operator: returns the left value when it is
falsy, the right value otherwise. -/
def jsAnd (a b : JsPrim) : JsPrim :=
  if jsTruthy a then b else a

/-- Whether the needle list is an initial segment of the hay list. -/
def matchesFront : List Char → List Char → Bool
  | [], _ => true
  | _ :: _, [] => false
  | a :: as, b :: bs => a == b && matchesFront as bs

/-- Whether the needle list occurs contiguously inside the hay list. -/
def occursIn (needle : List Char) : List Char → Bool
  | [] => needle.isEmpty
  | c :: rest => matchesFront needle (c :: rest) || occursIn needle rest

/-- The JavaScript `String.prototype.includes`. -/
def strIncludes (s sub : String) : Bool :=
  occursIn sub.toList s.toList

/-- The first routing condition of the mock client `get`:
`url.includes(p) && !url.includes(p) + sl` as written in the source,
with operator precedence binding `+` tighter than `&&`. -/
def jsListRouteCond (url p sl : String) : Bool :=
  jsTruthy (jsAnd (.pBool (strIncludes url p))
    (jsAdd (.pBool (!strIncludes url p)) (.pStr sl)))

/-- The battles-list routing condition
`url.includes('/battles/') && !url.includes('/battles/') + '/'`. -/
def battlesListCond (url : String) : Bool :=
  jsListRouteCond url "/battles/" "/"

/-- The users-list routing condition of the same shape. -/
def usersListCond (url : String) : Bool :=
  jsListRouteCond url "/users/" "/"

/-- A JSON-like value, used to state what the mock client returns. -/
inductive JsonV where
  | jnull
  | jbool (b : Bool)
  | jnum (q : ℚ)
  | jstr (s : String)
  | jarr (elems : List JsonV)
  | jobj (fields : List (String × JsonV))

/-- Whether the value is a JSON array. -/
def JsonV.isArr : JsonV → Bool
  | .jarr _ => true
  | _ => false

/-- JavaScript property access: the named field of an object,
undefined (here jnull) otherwise. -/
def jget (v : JsonV) (k : String) : JsonV :=
  match v with
  | .jobj fields =>
      match fields.find? (fun p => p.1 == k) with
      | some p => p.2
      | none => .jnull
  | _ => .jnull

/-- Whether the object value carries the named field. -/
def hasField (v : JsonV) (k : String) : Bool :=
  match v with
  | .jobj fields => fields.any (fun p => p.1 == k)
  | _ => false

/-- The JSON rendering of a mock battle record. -/
def battleJson (b : MockBattle) : JsonV :=
  .jobj [("id", .jstr b.id),
         ("category", .jstr b.category),
         ("total_votes", .jnum b.totalVotes),
         ("created_at", .jstr b.createdAt),
         ("is_active", .jbool b.isActive),
         ("trending_score", .jnum b.trendingScore),
         ("user_voted", .jbool b.userVoted)]

/-- The JSON rendering of a mock user record. -/
def userJson (u : MockUser) : JsonV :=
  .jobj [("id", .jstr u.id),
         ("username", .jstr u.username),
         ("email", .jstr u.email)]

/-- The battles-list response envelope of the mock client, pagination
meta included; `pages` is `Math.ceil(battles.length / 20)`. -/
def battlesListEnvelope (battles : List MockBattle) : JsonV :=
  .jobj [("success", .jbool true),
         ("data", .jarr (battles.map battleJson)),
         ("meta", .jobj
           [("pagination", .jobj
             [("page", .jnum 1),
              ("per_page", .jnum 20),
              ("total", .jnum battles.length),
              ("pages", .jnum ((battles.length + 19) / 20))])])]

/-- A success envelope with a data payload and no meta. -/
def dataEnvelope (payload : JsonV) : JsonV :=
  .jobj [("success", .jbool true), ("data", payload)]

/-- The query params object of the mock client `get`; the JavaScript
truthiness tests `if (params.category)` etc. are reproduced in
`mockGet`. -/
structure ReqParams where
  category : Option String
  trending : Bool
  personalized : Bool
  quickPicks : Bool
deriving DecidableEq, Repr

/-- The params object when the caller passes no config
(`config?.params || {}`). -/
def noParams : ReqParams := ⟨none, false, false, false⟩

/-- The battles list after the filter pipeline of the battles-list
branch: category filter, then the trending / personalized /
quick_picks overrides, in source order. -/
def battlesAfterFilters (params : ReqParams) : List MockBattle :=
  let battles0 := mockBattlesList
  let battles1 :=
    match params.category with
    | some c => if c != "" then battles0.filter (fun b => b.category == c) else battles0
    | none => battles0
  let battles2 := if params.trending then mockTrendingList else battles1
  let battles3 := if params.personalized then mockPersonalizedList else battles2
  if params.quickPicks then mockQuickPicksList else battles3

/-- getMockBattleById from the mock data module. -/
def getMockBattleById (id : String) : Option MockBattle :=
  mockBattlesList.find? (fun b => b.id == id)

/-- getMockUserByUsername from the mock data module. -/
def getMockUserByUsername (username : String) : Option MockUser :=
  mockUsersList.find? (fun u => u.username == username)

/-- The mock API client `get`, translated branch by branch: the
battles-list branch (with its routing condition as written), the
single-battle branch (which throws when the battle is missing), the
two user branches, and the trending / personalized / quick-picks
branches; the default response closes the chain. The network delay is
immaterial to the returned value and is not modelled. -/
def mockGet (url : String) (params : ReqParams) : Except String JsonV :=
  if battlesListCond url then
    .ok (.jobj [("data", battlesListEnvelope (battlesAfterFilters params))])
  else if strIncludes url "/battles/" && decide (2 < (url.splitOn "/").length) then
    let battleId := (url.splitOn "/").getLastD ""
    match getMockBattleById battleId with
    | none => .error "Battle not found"
    | some b => .ok (.jobj [("data", dataEnvelope (battleJson b))])
  else if usersListCond url then
    .ok (.jobj [("data", dataEnvelope (.jarr (mockUsersList.map userJson)))])
  else if strIncludes url "/users/" && decide (2 < (url.splitOn "/").length) then
    let username := (url.splitOn "/").getLastD ""
    match getMockUserByUsername username with
    | none => .error "User not found"
    | some u => .ok (.jobj [("data", dataEnvelope (userJson u))])
  else if strIncludes url "/trending/" then
    .ok (.jobj [("data", dataEnvelope (.jarr (mockTrendingList.map battleJson)))])
  else if strIncludes url "/personalized/" then
    .ok (.jobj [("data", dataEnvelope (.jarr (mockPersonalizedList.map battleJson)))])
  else if strIncludes url "/quick-picks/" then
    .ok (.jobj [("data", dataEnvelope (.jarr (mockQuickPicksList.map battleJson)))])
  else
    .ok (.jobj [("data", dataEnvelope (.jarr []))])

/-! ## Part 5: battleService in development mode (mock client selected)

Each service method returns `response.data`, the raw envelope, even
though its declared return type promises an array of Battle records. -/

/-- battleService.getBattles: `client.get('/battles/', { params })`
then `response.data`. -/
def serviceGetBattles (filters : ReqParams) : Except String JsonV :=
  (mockGet "/battles/" filters).map (fun r => jget r "data")

/-- battleService.getBattle: `client.get('/battles/' + id + '/')`
then `response.data`. -/
def serviceGetBattle (id : String) : Except String JsonV :=
  (mockGet ("/battles/" ++ id ++ "/") noParams).map (fun r => jget r "data")

/-- battleService.getTrendingBattles: `client.get('/trending/')`
then `response.data`. -/
def serviceGetTrending : Except String JsonV :=
  (mockGet "/trending/" noParams).map (fun r => jget r "data")

/-- battleService.getQuickPicksBattles: `client.get('/quick-picks/')`
then `response.data`. -/
def serviceGetQuickPicks : Except String JsonV :=
  (mockGet "/quick-picks/" noParams).map (fun r => jget r "data")

/-! ## Part 6: hook timers (translated from the hooks module)

Each battle-fetching hook mounts an effect that starts a
`setInterval(fetch, 5 * 60 * 1000)` and returns a cleanup that calls
`clearInterval` on the created id; `useBattle` and
`useBattlesByCategory` guard the whole effect behind the truthiness of
their argument. The timer table below gives `setInterval` and
`clearInterval` their standard semantics. -/

/-- The polling delay used by every battle-fetching hook. -/
def pollIntervalMs : Nat := 5 * 60 * 1000

/-- The host timer table: a fresh-id counter and the live intervals as
(id, delay) pairs. -/
structure TimerState where
  nextId : Nat
  active : List (Nat × Nat)
deriving DecidableEq, Repr

/-- setInterval: registers a new interval and returns its id. -/
def jsSetInterval (delayMs : Nat) (s : TimerState) : Nat × TimerState :=
  (s.nextId, ⟨s.nextId + 1, s.active ++ [(s.nextId, delayMs)]⟩)

/-- clearInterval: removes the interval with the given id. -/
def jsClearInterval (id : Nat) (s : TimerState) : TimerState :=
  ⟨s.nextId, s.active.filter (fun p => p.1 != id)⟩

/-- The useBattles mount effect: `setInterval(fetchBattles, 5*60*1000)`. -/
def useBattlesMount (s : TimerState) : Nat × TimerState :=
  jsSetInterval pollIntervalMs s

/-- The useTrendingBattles mount effect. -/
def useTrendingBattlesMount (s : TimerState) : Nat × TimerState :=
  jsSetInterval pollIntervalMs s

/-- The usePersonalizedBattles mount effect. -/
def usePersonalizedBattlesMount (s : TimerState) : Nat × TimerState :=
  jsSetInterval pollIntervalMs s

/-- The useQuickPicksBattles mount effect. -/
def useQuickPicksBattlesMount (s : TimerState) : Nat × TimerState :=
  jsSetInterval pollIntervalMs s

/-- The useBattle mount effect: the fetch and the interval run only
when `id` is truthy (`if (id) { ... }`). -/
def useBattleMount (id : String) (s : TimerState) : Option Nat × TimerState :=
  if id != "" then
    (some (jsSetInterval pollIntervalMs s).1, (jsSetInterval pollIntervalMs s).2)
  else
    (none, s)

/-- The useBattlesByCategory mount effect: guarded by the truthiness
of `category`. -/
def useBattlesByCategoryMount (category : String) (s : TimerState) :
    Option Nat × TimerState :=
  if category != "" then
    (some (jsSetInterval pollIntervalMs s).1, (jsSetInterval pollIntervalMs s).2)
  else
    (none, s)

/-- The cleanup returned by each hook effect: clear the interval the
effect created. -/
def hookCleanup (intervalId : Nat) (s : TimerState) : TimerState :=
  jsClearInterval intervalId s

/-! ## Part 7: claim-level predicates and scenario inputs -/

/-- The ranking order required by the spec on the score component: a
battle with a strictly higher trending score precedes one with a lower
score, i.e. scores are non-increasing along the list. -/
def rankedByScoreDesc (l : List MockBattle) : Prop :=
  l.Pairwise fun a b => b.trendingScore ≤ a.trendingScore

/-- The "needs your vote" eligibility requirement: no inactive or
already-voted battle is ranked above an active not-yet-voted one.
Stated pairwise: whenever a later battle is eligible, every earlier
battle is eligible too. -/
def noIneligibleAboveEligible (l : List MockBattle) : Prop :=
  l.Pairwise fun a b =>
    (b.isActive = true ∧ b.userVoted = false) →
      (a.isActive = true ∧ a.userVoted = false)

/-- Rate-limit scenario: n + 1 open battles with identifiers 0..n and
no deadline. -/
def rlBattles (n : Nat) : List LBattle :=
  (List.range (n + 1)).map fun k => ⟨k, true, none⟩

/-- Rate-limit scenario: element k belongs to battle k, so no attempt
is a duplicate of an earlier one. -/
def rlElems (n : Nat) : List LElement :=
  (List.range (n + 1)).map fun k => ⟨k, k⟩

/-- Rate-limit scenario: n + 1 attempts by one identity, all at time
t, one per battle. -/
def rlReqs (n : Nat) (vid : VoterIdentity) (t : Nat) : List SubmitReq :=
  (List.range (n + 1)).map fun k => ⟨k, k, vid, t⟩

/-- Rate-limit scenario: the ledger state after the first j attempts
were all accepted — one event per battle 0..j-1 and j recorded
attempts. -/
def rlState (j : Nat) (vid : VoterIdentity) (t : Nat) : LedgerState :=
  ⟨(List.range j).map fun i => ⟨i, i, vid.ip, vid.fingerprint, t⟩,
   List.replicate j ⟨vid.ip, vid.fingerprint, t⟩⟩

/-! ## Part 8: concrete inputs used by the witness theorems -/

/-- A concrete voter identity. -/
def witVid : VoterIdentity := ⟨"203.0.113.9", "fp-alpha", "sess-1"⟩

/-- One open battle with identifier 1 and no deadline. -/
def witBattles : List LBattle := [⟨1, true, none⟩]

/-- Two elements, both belonging to battle 1. -/
def witElems : List LElement := [⟨1, 1⟩, ⟨2, 1⟩]

/-- Two submissions by the same identity for battle 1, choosing
element 1 then element 2. -/
def witReqs : List SubmitReq := [⟨1, 1, witVid, 0⟩, ⟨1, 2, witVid, 1⟩]

/-- An engine configuration with unit weights and decay 1/2. -/
def witEngineCfg : EngineConfig := ⟨1, 1, 1, 1, 1, 1, 1 / 2⟩

/-- A tick with zero new vote and engagement events. -/
def witZeroTick : TickInput := ⟨0, 0, 0, 0, 0, 0, 0, 0⟩

/-- An empty host timer table. -/
def witTimer : TimerState := ⟨0, []⟩

/-! ## Theorems. First, branch lemmas for the modelled `submit_vote`. -/

theorem submitVote_closed (cfg : LedgerConfig) (bs : List LBattle)
    (es : List LElement) (st : LedgerState) (b e : Nat) (vid : VoterIdentity)
    (t : Nat) (hb : battleOpen bs b t = false) :
    submitVote cfg bs es st b e vid t =
      (.rejected .battleClosed, ⟨st.events, st.attempts ++ [⟨vid.ip, vid.fingerprint, t⟩]⟩) := by
  simp [submitVote, hb]

theorem submitVote_invalidElem (cfg : LedgerConfig) (bs : List LBattle)
    (es : List LElement) (st : LedgerState) (b e : Nat) (vid : VoterIdentity)
    (t : Nat) (hb : battleOpen bs b t = true) (he : elementBelongs es e b = false) :
    submitVote cfg bs es st b e vid t =
      (.rejected .invalidElement, ⟨st.events, st.attempts ++ [⟨vid.ip, vid.fingerprint, t⟩]⟩) := by
  simp [submitVote, hb, he]

theorem submitVote_dup (cfg : LedgerConfig) (bs : List LBattle)
    (es : List LElement) (st : LedgerState) (b e : Nat) (vid : VoterIdentity)
    (t : Nat) (hb : battleOpen bs b t = true) (he : elementBelongs es e b = true)
    (hd : isDuplicate st.events b vid.ip vid.fingerprint = true) :
    submitVote cfg bs es st b e vid t =
      (.rejected .duplicateVote, ⟨st.events, st.attempts ++ [⟨vid.ip, vid.fingerprint, t⟩]⟩) := by
  simp [submitVote, hb, he, hd]

theorem submitVote_rate (cfg : LedgerConfig) (bs : List LBattle)
    (es : List LElement) (st : LedgerState) (b e : Nat) (vid : VoterIdentity)
    (t : Nat) (hb : battleOpen bs b t = true) (he : elementBelongs es e b = true)
    (hd : isDuplicate st.events b vid.ip vid.fingerprint = false)
    (hr : rateLimited cfg st.attempts vid.ip vid.fingerprint t = true) :
    submitVote cfg bs es st b e vid t =
      (.rejected .rateLimited, ⟨st.events, st.attempts ++ [⟨vid.ip, vid.fingerprint, t⟩]⟩) := by
  simp [submitVote, hb, he, hd, hr]

theorem submitVote_accept (cfg : LedgerConfig) (bs : List LBattle)
    (es : List LElement) (st : LedgerState) (b e : Nat) (vid : VoterIdentity)
    (t : Nat) (hb : battleOpen bs b t = true) (he : elementBelongs es e b = true)
    (hd : isDuplicate st.events b vid.ip vid.fingerprint = false)
    (hr : rateLimited cfg st.attempts vid.ip vid.fingerprint t = false) :
    submitVote cfg bs es st b e vid t =
      (.accepted,
        ⟨st.events ++ [⟨b, e, vid.ip, vid.fingerprint, t⟩],
         st.attempts ++ [⟨vid.ip, vid.fingerprint, t⟩]⟩) := by
  simp [submitVote, hb, he, hd, hr]

theorem submitVote_accepted_inv (cfg : LedgerConfig) (bs : List LBattle)
    (es : List LElement) (st : LedgerState) (b e : Nat) (vid : VoterIdentity)
    (t : Nat) (h : (submitVote cfg bs es st b e vid t).1 = .accepted) :
    battleOpen bs b t = true ∧ elementBelongs es e b = true ∧
      isDuplicate st.events b vid.ip vid.fingerprint = false ∧
      rateLimited cfg st.attempts vid.ip vid.fingerprint t = false := by
  cases hb : battleOpen bs b t with
  | false => simp [submitVote, hb] at h
  | true =>
    cases he : elementBelongs es e b with
    | false => simp [submitVote, hb, he] at h
    | true =>
      cases hd : isDuplicate st.events b vid.ip vid.fingerprint with
      | true => simp [submitVote, hb, he, hd] at h
      | false =>
        cases hr : rateLimited cfg st.attempts vid.ip vid.fingerprint t with
        | true => simp [submitVote, hb, he, hd, hr] at h
        | false => exact ⟨rfl, rfl, rfl, rfl⟩

theorem submitVote_accepted_state (cfg : LedgerConfig) (bs : List LBattle)
    (es : List LElement) (st : LedgerState) (b e : Nat) (vid : VoterIdentity)
    (t : Nat) (h : (submitVote cfg bs es st b e vid t).1 = .accepted) :
    (submitVote cfg bs es st b e vid t).2 =
      ⟨st.events ++ [⟨b, e, vid.ip, vid.fingerprint, t⟩],
       st.attempts ++ [⟨vid.ip, vid.fingerprint, t⟩]⟩ := by
  obtain ⟨hb, he, hd, hr⟩ := submitVote_accepted_inv cfg bs es st b e vid t h
  rw [submitVote_accept cfg bs es st b e vid t hb he hd hr]

theorem submit_preserves_unique (cfg : LedgerConfig) (bs : List LBattle)
    (es : List LElement) (st : LedgerState) (b e : Nat) (vid : VoterIdentity)
    (t : Nat) (h : uniqueVoteKeys st.events) :
    uniqueVoteKeys (submitVote cfg bs es st b e vid t).2.events := by
  cases hb : battleOpen bs b t with
  | false => rw [submitVote_closed cfg bs es st b e vid t hb]; exact h
  | true =>
    cases he : elementBelongs es e b with
    | false => rw [submitVote_invalidElem cfg bs es st b e vid t hb he]; exact h
    | true =>
      cases hd : isDuplicate st.events b vid.ip vid.fingerprint with
      | true => rw [submitVote_dup cfg bs es st b e vid t hb he hd]; exact h
      | false =>
        cases hr : rateLimited cfg st.attempts vid.ip vid.fingerprint t with
        | true => rw [submitVote_rate cfg bs es st b e vid t hb he hd hr]; exact h
        | false =>
          rw [submitVote_accept cfg bs es st b e vid t hb he hd hr]
          unfold uniqueVoteKeys at h ⊢
          rw [List.pairwise_append]
          refine ⟨h, by simp, ?_⟩
          intro a ha bb hbb
          simp only [List.mem_singleton] at hbb
          subst hbb
          rintro ⟨h1, h2, h3⟩
          have hdup : isDuplicate st.events b vid.ip vid.fingerprint = true := by
            unfold isDuplicate
            refine List.any_eq_true.mpr ⟨a, ha, ?_⟩
            simp [h1, h2, h3]
          simp [hdup] at hd

theorem runSubmissions_unique (cfg : LedgerConfig) (bs : List LBattle)
    (es : List LElement) (reqs : List SubmitReq) :
    ∀ st : LedgerState, uniqueVoteKeys st.events →
      uniqueVoteKeys (runSubmissions cfg bs es reqs st).events := by
  induction reqs with
  | nil => intro st h; exact h
  | cons r rs ih =>
    intro st h
    simp only [runSubmissions]
    exact ih _ (submit_preserves_unique cfg bs es st r.battleId r.elementId r.vid r.timestamp h)

/-- C1: an accepted vote makes any second attempt with the same
(battle_id, IP, fingerprint) reject with DuplicateVote, whichever
valid element the second attempt chooses; and after any sequence of
submissions from the empty ledger, at most one accepted VoteEvent
exists per (battle_id, voter_ip, fingerprint). -/
theorem claim1_duplicate_rejection (cfg : LedgerConfig) (bs : List LBattle)
    (es : List LElement) (st : LedgerState) (b e1 e2 : Nat) (vid : VoterIdentity)
    (t1 t2 : Nat) (reqs : List SubmitReq)
    (hacc : (submitVote cfg bs es st b e1 vid t1).1 = .accepted)
    (hb2 : battleOpen bs b t2 = true)
    (he2 : elementBelongs es e2 b = true) :
    (submitVote cfg bs es (submitVote cfg bs es st b e1 vid t1).2 b e2 vid t2).1
        = .rejected .duplicateVote
    ∧ uniqueVoteKeys (runSubmissions cfg bs es reqs emptyLedger).events := by
  constructor
  · rw [submitVote_accepted_state cfg bs es st b e1 vid t1 hacc]
    have hdup : isDuplicate
        (st.events ++ [⟨b, e1, vid.ip, vid.fingerprint, t1⟩]) b vid.ip vid.fingerprint
        = true := by
      unfold isDuplicate
      rw [List.any_append]
      simp
    rw [submitVote_dup cfg bs es _ b e2 vid t2 hb2 he2 hdup]
  · exact runSubmissions_unique cfg bs es reqs emptyLedger (by simp [emptyLedger, uniqueVoteKeys])

/-- Witness for C1 at a concrete battle, identity and request list. -/
theorem claim1_duplicate_rejection_witness :
    (submitVote defaultLedgerConfig witBattles witElems
        (submitVote defaultLedgerConfig witBattles witElems emptyLedger 1 1 witVid 0).2
        1 2 witVid 1).1 = .rejected .duplicateVote
    ∧ uniqueVoteKeys
        (runSubmissions defaultLedgerConfig witBattles witElems witReqs emptyLedger).events :=
  claim1_duplicate_rejection defaultLedgerConfig witBattles witElems emptyLedger
    1 1 2 witVid 0 1 witReqs (by decide) (by decide) (by decide)

/-! Rate-limit scenario lemmas. -/

theorem rlBattles_open (n j t : Nat) (h : j < n + 1) :
    battleOpen (rlBattles n) j t = true := by
  unfold battleOpen rlBattles
  rw [List.any_eq_true]
  refine ⟨⟨j, true, none⟩, ?_, by simp⟩
  exact List.mem_map.mpr ⟨j, List.mem_range.mpr h, rfl⟩

theorem rlElems_belongs (n j : Nat) (h : j < n + 1) :
    elementBelongs (rlElems n) j j = true := by
  unfold elementBelongs rlElems
  rw [List.any_eq_true]
  refine ⟨⟨j, j⟩, ?_, by simp⟩
  exact List.mem_map.mpr ⟨j, List.mem_range.mpr h, rfl⟩

theorem rlState_noDup (j b : Nat) (vid : VoterIdentity) (t : Nat) (h : j ≤ b) :
    isDuplicate (rlState j vid t).events b vid.ip vid.fingerprint = false := by
  unfold isDuplicate rlState
  rw [List.any_eq_false]
  intro ev hev
  obtain ⟨i, hi, rfl⟩ := List.mem_map.mp hev
  have hib : i ≠ b := by
    have := List.mem_range.mp hi
    omega
  simp [hib]

theorem filter_replicate_of_pos {α : Type} (p : α → Bool) (a : α) (h : p a = true) :
    ∀ j, (List.replicate j a).filter p = List.replicate j a := by
  intro j
  induction j with
  | zero => rfl
  | succ n ih => simp [List.replicate_succ, h, ih]

theorem filter_replicate_of_neg {α : Type} (p : α → Bool) (a : α) (h : p a = false) :
    ∀ j, (List.replicate j a).filter p = [] := by
  intro j
  induction j with
  | zero => rfl
  | succ n ih => simp [List.replicate_succ, h, ih]

theorem rateLimited_replicate (N W j : Nat) (ip fp : String) (t : Nat) (hW : 0 < W) :
    rateLimited ⟨N, W⟩ (List.replicate j ⟨ip, fp, t⟩) ip fp t = decide (N ≤ j) := by
  unfold rateLimited ipAttemptCount fpAttemptCount
  have hin : inWindow ⟨N, W⟩ t t = true := by
    unfold inWindow
    simp
    omega
  have hp1 : (fun a : AttemptRec => a.ip == ip && inWindow ⟨N, W⟩ t a.timestamp)
      (⟨ip, fp, t⟩ : AttemptRec) = true := by simp [hin]
  have hp2 : (fun a : AttemptRec => a.fingerprint == fp && inWindow ⟨N, W⟩ t a.timestamp)
      (⟨ip, fp, t⟩ : AttemptRec) = true := by simp [hin]
  rw [filter_replicate_of_pos
        (fun a : AttemptRec => a.ip == ip && inWindow ⟨N, W⟩ t a.timestamp)
        (⟨ip, fp, t⟩ : AttemptRec) hp1,
      filter_replicate_of_pos
        (fun a : AttemptRec => a.fingerprint == fp && inWindow ⟨N, W⟩ t a.timestamp)
        (⟨ip, fp, t⟩ : AttemptRec) hp2]
  rw [List.length_replicate]
  cases hNj : decide (N ≤ j) <;> simp [hNj]

theorem rateLimited_replicate_afterWindow (N W j : Nat) (ip fp : String) (t : Nat)
    (hN : 0 < N) :
    rateLimited ⟨N, W⟩ (List.replicate j ⟨ip, fp, t⟩) ip fp (t + W) = false := by
  unfold rateLimited ipAttemptCount fpAttemptCount
  have hin : inWindow ⟨N, W⟩ (t + W) t = false := by
    unfold inWindow
    simp
  have hp1 : (fun a : AttemptRec => a.ip == ip && inWindow ⟨N, W⟩ (t + W) a.timestamp)
      (⟨ip, fp, t⟩ : AttemptRec) = false := by simp [hin]
  have hp2 : (fun a : AttemptRec => a.fingerprint == fp && inWindow ⟨N, W⟩ (t + W) a.timestamp)
      (⟨ip, fp, t⟩ : AttemptRec) = false := by simp [hin]
  rw [filter_replicate_of_neg
        (fun a : AttemptRec => a.ip == ip && inWindow ⟨N, W⟩ (t + W) a.timestamp)
        (⟨ip, fp, t⟩ : AttemptRec) hp1,
      filter_replicate_of_neg
        (fun a : AttemptRec => a.fingerprint == fp && inWindow ⟨N, W⟩ (t + W) a.timestamp)
        (⟨ip, fp, t⟩ : AttemptRec) hp2]
  simp
  omega

theorem rlStep_accept (N W : Nat) (vid : VoterIdentity) (t j : Nat) (hW : 0 < W)
    (hj : j < N) :
    submitVote ⟨N, W⟩ (rlBattles N) (rlElems N) (rlState j vid t) j j vid t
      = (.accepted, rlState (j + 1) vid t) := by
  have hb := rlBattles_open N j t (by omega)
  have he := rlElems_belongs N j (by omega)
  have hd := rlState_noDup j j vid t le_rfl
  have hr : rateLimited ⟨N, W⟩ (rlState j vid t).attempts vid.ip vid.fingerprint t
      = false := by
    show rateLimited ⟨N, W⟩ (List.replicate j ⟨vid.ip, vid.fingerprint, t⟩)
      vid.ip vid.fingerprint t = false
    rw [rateLimited_replicate N W j vid.ip vid.fingerprint t hW]
    simp
    omega
  rw [submitVote_accept _ _ _ _ _ _ _ _ hb he hd hr]
  simp [rlState, List.range_succ, List.replicate_succ']

theorem rl_accept_phase (N W : Nat) (vid : VoterIdentity) (t : Nat) (hW : 0 < W) :
    ∀ m j, j + m ≤ N →
      runResults ⟨N, W⟩ (rlBattles N) (rlElems N)
          ((List.range' j m).map fun k => (⟨k, k, vid, t⟩ : SubmitReq)) (rlState j vid t)
        = List.replicate m .accepted
      ∧ runSubmissions ⟨N, W⟩ (rlBattles N) (rlElems N)
          ((List.range' j m).map fun k => (⟨k, k, vid, t⟩ : SubmitReq)) (rlState j vid t)
        = rlState (j + m) vid t := by
  intro m
  induction m with
  | zero =>
    intro j h
    simp [runResults, runSubmissions]
  | succ m ih =>
    intro j h
    rw [List.range'_succ]
    have hstep := rlStep_accept N W vid t j hW (by omega)
    have htail := ih (j + 1) (by omega)
    constructor
    · simp only [List.map_cons, runResults, hstep]
      simp [htail.1, List.replicate_succ]
    · simp only [List.map_cons, runSubmissions, hstep]
      rw [show j + (m + 1) = (j + 1) + m by omega]
      exact htail.2

theorem rlStep_limit (N W : Nat) (vid : VoterIdentity) (t : Nat) (hW : 0 < W) :
    submitVote ⟨N, W⟩ (rlBattles N) (rlElems N) (rlState N vid t) N N vid t
      = (.rejected .rateLimited,
         ⟨(rlState N vid t).events,
          List.replicate (N + 1) ⟨vid.ip, vid.fingerprint, t⟩⟩) := by
  have hb := rlBattles_open N N t (by omega)
  have he := rlElems_belongs N N (by omega)
  have hd := rlState_noDup N N vid t le_rfl
  have hr : rateLimited ⟨N, W⟩ (rlState N vid t).attempts vid.ip vid.fingerprint t
      = true := by
    show rateLimited ⟨N, W⟩ (List.replicate N ⟨vid.ip, vid.fingerprint, t⟩)
      vid.ip vid.fingerprint t = true
    rw [rateLimited_replicate N W N vid.ip vid.fingerprint t hW]
    simp
  rw [submitVote_rate _ _ _ _ _ _ _ _ hb he hd hr]
  simp [rlState, List.replicate_succ']

theorem rlStep_after_window (N W : Nat) (vid : VoterIdentity) (t : Nat) (hN : 0 < N) :
    (submitVote ⟨N, W⟩ (rlBattles N) (rlElems N)
        ⟨(rlState N vid t).events, List.replicate (N + 1) ⟨vid.ip, vid.fingerprint, t⟩⟩
        N N vid (t + W)).1 = .accepted := by
  have hb := rlBattles_open N N (t + W) (by omega)
  have he := rlElems_belongs N N (by omega)
  have hd := rlState_noDup N N vid t le_rfl
  have hr := rateLimited_replicate_afterWindow N W (N + 1) vid.ip vid.fingerprint t hN
  rw [submitVote_accept ⟨N, W⟩ (rlBattles N) (rlElems N)
        ⟨(rlState N vid t).events, List.replicate (N + 1) ⟨vid.ip, vid.fingerprint, t⟩⟩
        N N vid (t + W) hb he hd hr]

theorem runSubmissions_append (cfg : LedgerConfig) (bs : List LBattle)
    (es : List LElement) (l₁ l₂ : List SubmitReq) :
    ∀ st, runSubmissions cfg bs es (l₁ ++ l₂) st
      = runSubmissions cfg bs es l₂ (runSubmissions cfg bs es l₁ st) := by
  induction l₁ with
  | nil => intro st; rfl
  | cons r rs ih =>
    intro st
    simp only [List.cons_append, runSubmissions]
    exact ih _

theorem runResults_append (cfg : LedgerConfig) (bs : List LBattle)
    (es : List LElement) (l₁ l₂ : List SubmitReq) :
    ∀ st, runResults cfg bs es (l₁ ++ l₂) st
      = runResults cfg bs es l₁ st
          ++ runResults cfg bs es l₂ (runSubmissions cfg bs es l₁ st) := by
  induction l₁ with
  | nil => intro st; rfl
  | cons r rs ih =>
    intro st
    simp only [List.cons_append, runResults, runSubmissions, List.append_eq]
    rw [ih]

/-- C2: for any identity and any limit N > 0 with window W > 0
(defaults N = 20, W = 60), N + 1 non-duplicate attempts at the same
instant see the first N accepted and exactly the (N+1)th rejected with
RateLimited; a further attempt by the same identity after waiting the
full window is accepted. -/
theorem claim2_rate_limit_boundary (N W : Nat) (vid : VoterIdentity) (t : Nat)
    (hN : 0 < N) (hW : 0 < W) :
    runResults ⟨N, W⟩ (rlBattles N) (rlElems N) (rlReqs N vid t) emptyLedger
      = List.replicate N .accepted ++ [.rejected .rateLimited]
    ∧ (submitVote ⟨N, W⟩ (rlBattles N) (rlElems N)
        (runSubmissions ⟨N, W⟩ (rlBattles N) (rlElems N) (rlReqs N vid t) emptyLedger)
        N N vid (t + W)).1 = .accepted := by
  have hreqs : rlReqs N vid t
      = ((List.range' 0 N).map fun k => (⟨k, k, vid, t⟩ : SubmitReq))
          ++ [⟨N, N, vid, t⟩] := by
    unfold rlReqs
    rw [List.range_succ, List.map_append, List.range_eq_range']
    simp
  have hempty : emptyLedger = rlState 0 vid t := by simp [emptyLedger, rlState]
  have hphase := rl_accept_phase N W vid t hW N 0 (by omega)
  have hlimit := rlStep_limit N W vid t hW
  have hphase2 : runSubmissions ⟨N, W⟩ (rlBattles N) (rlElems N)
      ((List.range' 0 N).map fun k => (⟨k, k, vid, t⟩ : SubmitReq)) (rlState 0 vid t)
      = rlState N vid t := by
    rw [hphase.2]
    simp
  constructor
  · rw [hreqs, hempty, runResults_append, hphase.1, hphase2]
    simp [runResults, hlimit]
  · rw [hreqs, hempty, runSubmissions_append, hphase2]
    simp only [runSubmissions, hlimit]
    exact rlStep_after_window N W vid t hN

/-- Witness for C2 at the spec defaults N = 20, W = 60. -/
theorem claim2_rate_limit_boundary_witness :
    runResults ⟨20, 60⟩ (rlBattles 20) (rlElems 20) (rlReqs 20 witVid 0) emptyLedger
      = List.replicate 20 .accepted ++ [.rejected .rateLimited]
    ∧ (submitVote ⟨20, 60⟩ (rlBattles 20) (rlElems 20)
        (runSubmissions ⟨20, 60⟩ (rlBattles 20) (rlElems 20) (rlReqs 20 witVid 0) emptyLedger)
        20 20 witVid (0 + 60)).1 = .accepted :=
  claim2_rate_limit_boundary 20 60 witVid 0 (by decide) (by decide)

/-- C4: across any run of ticks in which every tick brings zero new
vote and engagement events, the final score is the initial score times
the decay factor raised to the number of ticks (exactly, in ℚ, hence
within any floating-point tolerance), and no tick runs the full
recompute path. -/
theorem claim4_score_decay (cfg : EngineConfig) (s0 : ℚ) (inps : List TickInput)
    (h : ∀ i ∈ inps, i.voteEvents = 0 ∧ i.engagementEvents = 0) :
    (runTicks cfg s0 inps).1 = s0 * cfg.timeDecayFactor ^ inps.length
    ∧ (runTicks cfg s0 inps).2 = List.replicate inps.length false := by
  revert h
  induction inps generalizing s0 with
  | nil =>
    intro h
    simp [runTicks]
  | cons i rest ih =>
    intro h
    have hi := h i (List.mem_cons_self i rest)
    have hrest : ∀ x ∈ rest, x.voteEvents = 0 ∧ x.engagementEvents = 0 :=
      fun x hx => h x (List.mem_cons_of_mem i hx)
    have hstep : engineTick cfg s0 i = (s0 * cfg.timeDecayFactor, false) := by
      unfold engineTick
      rw [if_pos hi]
    have htail := ih (s0 * cfg.timeDecayFactor) hrest
    constructor
    · simp only [runTicks, hstep]
      rw [htail.1, List.length_cons]
      ring
    · simp only [runTicks, hstep]
      rw [htail.2, List.length_cons, List.replicate_succ]

/-- Witness for C4: two zero-event ticks at decay 1/2. -/
theorem claim4_score_decay_witness :
    (runTicks witEngineCfg 4 (List.replicate 2 witZeroTick)).1
      = 4 * witEngineCfg.timeDecayFactor ^ (List.replicate 2 witZeroTick).length
    ∧ (runTicks witEngineCfg 4 (List.replicate 2 witZeroTick)).2
      = List.replicate (List.replicate 2 witZeroTick).length false :=
  claim4_score_decay witEngineCfg 4 (List.replicate 2 witZeroTick) (by decide)

/-- C5: submit_vote rejects with BattleClosed exactly when the battle
is not open at the submission time; when the battle is open it rejects
with InvalidElement exactly when the element does not belong to the
battle; and when both constraints hold neither rejection occurs.
When both constraints fail at once the battle check, listed first by
the spec, wins. -/
theorem claim5_constraint_rejections (cfg : LedgerConfig) (bs : List LBattle)
    (es : List LElement) (st : LedgerState) (b e : Nat) (vid : VoterIdentity)
    (t : Nat) :
    ((submitVote cfg bs es st b e vid t).1 = .rejected .battleClosed
        ↔ battleOpen bs b t = false)
    ∧ (battleOpen bs b t = true →
        ((submitVote cfg bs es st b e vid t).1 = .rejected .invalidElement
          ↔ elementBelongs es e b = false))
    ∧ (battleOpen bs b t = true → elementBelongs es e b = true →
        (submitVote cfg bs es st b e vid t).1 ≠ .rejected .battleClosed
        ∧ (submitVote cfg bs es st b e vid t).1 ≠ .rejected .invalidElement) := by
  cases hb : battleOpen bs b t with
  | false =>
    rw [submitVote_closed cfg bs es st b e vid t hb]
    simp
  | true =>
    cases he : elementBelongs es e b with
    | false =>
      rw [submitVote_invalidElem cfg bs es st b e vid t hb he]
      simp
    | true =>
      cases hd : isDuplicate st.events b vid.ip vid.fingerprint with
      | true =>
        rw [submitVote_dup cfg bs es st b e vid t hb he hd]
        simp
      | false =>
        cases hr : rateLimited cfg st.attempts vid.ip vid.fingerprint t with
        | true =>
          rw [submitVote_rate cfg bs es st b e vid t hb he hd hr]
          simp
        | false =>
          rw [submitVote_accept cfg bs es st b e vid t hb he hd hr]
          simp

theorem runResults_dup_replicate (cfg : LedgerConfig) (bs : List LBattle)
    (es : List LElement) (b e : Nat) (vid : VoterIdentity) (t : Nat)
    (hb : battleOpen bs b t = true) (he : elementBelongs es e b = true) :
    ∀ (k : Nat) (st : LedgerState),
      isDuplicate st.events b vid.ip vid.fingerprint = true →
      runResults cfg bs es (List.replicate k ⟨b, e, vid, t⟩) st
        = List.replicate k (.rejected .duplicateVote) := by
  intro k
  induction k with
  | zero => intro st _; rfl
  | succ n ih =>
    intro st hd
    simp only [List.replicate_succ, runResults]
    rw [submitVote_dup cfg bs es st b e vid t hb he hd]
    exact congrArg (List.cons _)
      (ih ⟨st.events, st.attempts ++ [⟨vid.ip, vid.fingerprint, t⟩]⟩ hd)

/-- C7: K submissions with the identical identity tuple for the same
open battle — the serialization that the per-key atomicity of the spec
guarantees for K concurrent attempts — produce exactly one acceptance
followed by K - 1 DuplicateVote rejections, never K acceptances. -/
theorem claim7_concurrent_duplicates (cfg : LedgerConfig) (bs : List LBattle)
    (es : List LElement) (st : LedgerState) (b e : Nat) (vid : VoterIdentity)
    (t K : Nat) (hK : 1 ≤ K)
    (hb : battleOpen bs b t = true) (he : elementBelongs es e b = true)
    (hd : isDuplicate st.events b vid.ip vid.fingerprint = false)
    (hr : rateLimited cfg st.attempts vid.ip vid.fingerprint t = false) :
    runResults cfg bs es (List.replicate K ⟨b, e, vid, t⟩) st
      = .accepted :: List.replicate (K - 1) (.rejected .duplicateVote) := by
  obtain ⟨k, rfl⟩ : ∃ k, K = k + 1 := ⟨K - 1, by omega⟩
  simp only [List.replicate_succ, runResults]
  rw [submitVote_accept cfg bs es st b e vid t hb he hd hr]
  dsimp only
  have hdup : isDuplicate (st.events ++ [⟨b, e, vid.ip, vid.fingerprint, t⟩])
      b vid.ip vid.fingerprint = true := by
    unfold isDuplicate
    rw [List.any_append]
    simp
  rw [show k + 1 - 1 = k from rfl]
  exact congrArg (List.cons _)
    (runResults_dup_replicate cfg bs es b e vid t hb he k _ hdup)

/-- Witness for C7 at K = 3 on a concrete battle and identity. -/
theorem claim7_concurrent_duplicates_witness :
    runResults defaultLedgerConfig witBattles witElems
        (List.replicate 3 ⟨1, 1, witVid, 0⟩) emptyLedger
      = .accepted :: List.replicate (3 - 1) (.rejected .duplicateVote) :=
  claim7_concurrent_duplicates defaultLedgerConfig witBattles witElems emptyLedger
    1 1 witVid 0 3 (by decide) (by decide) (by decide) (by decide) (by decide)

/-! Hook timer lemmas. -/

theorem setClear_restores (d : Nat) (s : TimerState)
    (hfresh : ∀ p ∈ s.active, p.1 ≠ s.nextId) :
    (jsClearInterval (jsSetInterval d s).1 (jsSetInterval d s).2).active = s.active := by
  unfold jsSetInterval jsClearInterval
  dsimp only
  rw [List.filter_append]
  have h1 : s.active.filter (fun p => p.1 != s.nextId) = s.active := by
    refine List.filter_eq_self.mpr ?_
    intro a ha
    simp [bne_iff_ne]
    exact hfresh a ha
  rw [h1]
  simp

theorem useBattleMount_eq (arg : String) (s : TimerState) (h : arg ≠ "") :
    useBattleMount arg s
      = (some (jsSetInterval pollIntervalMs s).1, (jsSetInterval pollIntervalMs s).2) := by
  unfold useBattleMount
  rw [if_pos (bne_iff_ne.mpr h)]

theorem useBattlesByCategoryMount_eq (arg : String) (s : TimerState) (h : arg ≠ "") :
    useBattlesByCategoryMount arg s
      = (some (jsSetInterval pollIntervalMs s).1, (jsSetInterval pollIntervalMs s).2) := by
  unfold useBattlesByCategoryMount
  rw [if_pos (bne_iff_ne.mpr h)]

/-- C8: every battle-fetching hook registers its re-fetch interval
with delay exactly 5 * 60 * 1000 milliseconds, and its cleanup removes
precisely the interval it created, restoring the timer table. The two
guarded hooks (useBattle, useBattlesByCategory) do so whenever their
argument is truthy. -/
theorem claim8_five_minute_polling (s : TimerState) (id category : String)
    (hfresh : ∀ p ∈ s.active, p.1 ≠ s.nextId) (hid : id ≠ "") (hcat : category ≠ "") :
    pollIntervalMs = 5 * 60 * 1000
    ∧ (useBattlesMount s).2.active
        = s.active ++ [((useBattlesMount s).1, 5 * 60 * 1000)]
    ∧ (hookCleanup (useBattlesMount s).1 (useBattlesMount s).2).active = s.active
    ∧ (useTrendingBattlesMount s).2.active
        = s.active ++ [((useTrendingBattlesMount s).1, 5 * 60 * 1000)]
    ∧ (hookCleanup (useTrendingBattlesMount s).1 (useTrendingBattlesMount s).2).active
        = s.active
    ∧ (usePersonalizedBattlesMount s).2.active
        = s.active ++ [((usePersonalizedBattlesMount s).1, 5 * 60 * 1000)]
    ∧ (hookCleanup (usePersonalizedBattlesMount s).1
          (usePersonalizedBattlesMount s).2).active = s.active
    ∧ (useQuickPicksBattlesMount s).2.active
        = s.active ++ [((useQuickPicksBattlesMount s).1, 5 * 60 * 1000)]
    ∧ (hookCleanup (useQuickPicksBattlesMount s).1
          (useQuickPicksBattlesMount s).2).active = s.active
    ∧ (useBattleMount id s).1 = some s.nextId
    ∧ (useBattleMount id s).2.active = s.active ++ [(s.nextId, 5 * 60 * 1000)]
    ∧ (hookCleanup s.nextId (useBattleMount id s).2).active = s.active
    ∧ (useBattlesByCategoryMount category s).1 = some s.nextId
    ∧ (useBattlesByCategoryMount category s).2.active
        = s.active ++ [(s.nextId, 5 * 60 * 1000)]
    ∧ (hookCleanup s.nextId (useBattlesByCategoryMount category s).2).active
        = s.active := by
  have hclear := setClear_restores pollIntervalMs s hfresh
  refine ⟨rfl, rfl, hclear, rfl, hclear, rfl, hclear, rfl, hclear, ?_, ?_, ?_, ?_, ?_, ?_⟩
  · rw [useBattleMount_eq id s hid]
    rfl
  · rw [useBattleMount_eq id s hid]
    rfl
  · rw [useBattleMount_eq id s hid]
    exact hclear
  · rw [useBattlesByCategoryMount_eq category s hcat]
    rfl
  · rw [useBattlesByCategoryMount_eq category s hcat]
    rfl
  · rw [useBattlesByCategoryMount_eq category s hcat]
    exact hclear

/-- Witness for C8 on the empty timer table. -/
theorem claim8_five_minute_polling_witness :
    pollIntervalMs = 5 * 60 * 1000
    ∧ (useBattlesMount witTimer).2.active
        = witTimer.active ++ [((useBattlesMount witTimer).1, 5 * 60 * 1000)]
    ∧ (hookCleanup (useBattlesMount witTimer).1 (useBattlesMount witTimer).2).active
        = witTimer.active
    ∧ (useTrendingBattlesMount witTimer).2.active
        = witTimer.active ++ [((useTrendingBattlesMount witTimer).1, 5 * 60 * 1000)]
    ∧ (hookCleanup (useTrendingBattlesMount witTimer).1
          (useTrendingBattlesMount witTimer).2).active = witTimer.active
    ∧ (usePersonalizedBattlesMount witTimer).2.active
        = witTimer.active ++ [((usePersonalizedBattlesMount witTimer).1, 5 * 60 * 1000)]
    ∧ (hookCleanup (usePersonalizedBattlesMount witTimer).1
          (usePersonalizedBattlesMount witTimer).2).active = witTimer.active
    ∧ (useQuickPicksBattlesMount witTimer).2.active
        = witTimer.active ++ [((useQuickPicksBattlesMount witTimer).1, 5 * 60 * 1000)]
    ∧ (hookCleanup (useQuickPicksBattlesMount witTimer).1
          (useQuickPicksBattlesMount witTimer).2).active = witTimer.active
    ∧ (useBattleMount "1" witTimer).1 = some witTimer.nextId
    ∧ (useBattleMount "1" witTimer).2.active
        = witTimer.active ++ [(witTimer.nextId, 5 * 60 * 1000)]
    ∧ (hookCleanup witTimer.nextId (useBattleMount "1" witTimer).2).active
        = witTimer.active
    ∧ (useBattlesByCategoryMount "food" witTimer).1 = some witTimer.nextId
    ∧ (useBattlesByCategoryMount "food" witTimer).2.active
        = witTimer.active ++ [(witTimer.nextId, 5 * 60 * 1000)]
    ∧ (hookCleanup witTimer.nextId (useBattlesByCategoryMount "food" witTimer).2).active
        = witTimer.active :=
  claim8_five_minute_polling witTimer "1" "food" (by simp [witTimer]) (by decide) (by decide)

/-! Mock ranking lemmas. -/

theorem trending_unsorted_aux : ¬ rankedByScoreDesc mockTrendingList := by
  intro h
  unfold rankedByScoreDesc mockTrendingList at h
  have h1 := (List.pairwise_cons.mp h).2
  have h2 := (List.pairwise_cons.mp h1).1 battleRec5 (by simp)
  norm_num [battleRec5, battleRec1] at h2

theorem quickpicks_aux : ¬ noIneligibleAboveEligible mockQuickPicksList := by
  intro h
  unfold noIneligibleAboveEligible mockQuickPicksList at h
  have h1 := (List.pairwise_cons.mp h).1 battleRec1 (by simp)
  have h2 := h1 ⟨rfl, rfl⟩
  simp [battleRec4] at h2

/-- C3 counterexample: in the trending list the battle at position 1
has score 85.5 while the battle at position 2 has the strictly higher
score 88.9, so the returned ranking does not place higher scores
first. -/
theorem claim3_counterexample_score_order :
    (mockTrendingList.getD 1 battleRec1).trendingScore = 85.5
    ∧ (mockTrendingList.getD 2 battleRec1).trendingScore = 88.9
    ∧ ¬ rankedByScoreDesc mockTrendingList :=
  ⟨rfl, rfl, trending_unsorted_aux⟩

/-- C3 amended: the ranked lists are fixed constant snapshots — the
trending endpoint returns exactly the hand-written list, so computing
the ranking twice yields the identical order — but that list is not
ordered by descending score, so the score-then-recency-then-identifier
total order does not hold on it. -/
theorem claim3_trending_deterministic_not_sorted :
    mockTrendingList = [battleRec3, battleRec1, battleRec5, battleRec2, battleRec4]
    ∧ serviceGetTrending
        = .ok (dataEnvelope (.jarr (mockTrendingList.map battleJson)))
    ∧ ¬ rankedByScoreDesc mockTrendingList :=
  ⟨rfl, rfl, trending_unsorted_aux⟩

/-- C6 counterexample: the quick-picks list ranks a battle the viewer
has already voted on (position 0) above an active not-yet-voted battle
(position 2). -/
theorem claim6_counterexample_voted_above_eligible :
    (mockQuickPicksList.getD 0 battleRec1).userVoted = true
    ∧ (mockQuickPicksList.getD 2 battleRec1).isActive = true
    ∧ (mockQuickPicksList.getD 2 battleRec1).userVoted = false
    ∧ ¬ noIneligibleAboveEligible mockQuickPicksList :=
  ⟨rfl, rfl, rfl, quickpicks_aux⟩

/-- C6 amended: the personalized surface satisfies the requirement —
no inactive or already-voted battle above an eligible one — but the
quick-picks surface, which the quick-picks endpoint serves verbatim,
violates it. -/
theorem claim6_personalized_ok_quickpicks_not :
    noIneligibleAboveEligible mockPersonalizedList
    ∧ serviceGetQuickPicks
        = .ok (dataEnvelope (.jarr (mockQuickPicksList.map battleJson)))
    ∧ ¬ noIneligibleAboveEligible mockQuickPicksList := by
  refine ⟨?_, rfl, quickpicks_aux⟩
  unfold noIneligibleAboveEligible mockPersonalizedList
  decide

/-! Routing lemmas for the mock client. -/

theorem matchesFront_append (l r : List Char) : matchesFront l (l ++ r) = true := by
  induction l with
  | nil => rfl
  | cons a as ih => simp [matchesFront, ih]

theorem occursIn_append_left (n r : List Char) : occursIn n (n ++ r) = true := by
  cases n with
  | nil =>
    cases r with
    | nil => rfl
    | cons c cs => rfl
  | cons a as =>
    have hm := matchesFront_append (a :: as) r
    simp only [List.cons_append] at hm ⊢
    simp [occursIn, hm]

theorem battlesListCond_eq (url : String) :
    battlesListCond url = strIncludes url "/battles/" := by
  unfold battlesListCond jsListRouteCond
  cases h : strIncludes url "/battles/" with
  | false => rfl
  | true => rfl

theorem strIncludes_battles (id : String) :
    strIncludes ("/battles/" ++ id ++ "/") "/battles/" = true := by
  unfold strIncludes
  have h : ("/battles/" ++ id ++ "/").toList
      = "/battles/".toList ++ (id.toList ++ "/".toList) := by
    show (("/battles/" ++ id) ++ "/").data = "/battles/".data ++ (id.data ++ "/".data)
    rw [String.data_append, String.data_append, List.append_assoc]
  rw [h]
  exact occursIn_append_left _ _

/-- C10: the first routing condition of the mock client collapses to a
plain substring test — `!url.includes(p) + '/'` is the non-empty
string "false/" or "true/", hence truthy — so every battle URL,
including `/battles/{id}/` for any id whatsoever, is handled by the
battles-list branch; `battleService.getBattle` therefore resolves to
the paginated list envelope and the single-battle branch with its
Battle-not-found throw is unreachable. -/
theorem claim10_battle_url_routing :
    (∀ url, battlesListCond url = strIncludes url "/battles/")
    ∧ ∀ id, serviceGetBattle id = .ok (battlesListEnvelope mockBattlesList) := by
  constructor
  · exact battlesListCond_eq
  · intro id
    have hc : battlesListCond ("/battles/" ++ id ++ "/") = true := by
      rw [battlesListCond_eq]
      exact strIncludes_battles id
    unfold serviceGetBattle mockGet
    rw [if_pos hc]
    rfl

/-- C9 counterexample: in development mode the trending envelope that
`getTrendingBattles` resolves to carries no `meta` field (the trending
branch builds only success and data), so the claimed
success/data/meta envelope shape fails for that list endpoint. -/
theorem claim9_counterexample_trending_no_meta :
    serviceGetTrending.map (fun v => hasField v "meta") = .ok false
    ∧ serviceGetTrending.map (fun v => hasField v "success") = .ok true :=
  ⟨rfl, rfl⟩

/-- C9 amended: in development mode `getBattles` resolves to the full
envelope object with success, data and meta, and `getTrendingBattles`
to the envelope object with success and data only (no meta field);
neither resolves to the array of Battle records that the declared
return type promises. -/
theorem claim9_envelopes_not_arrays (fs : ReqParams) :
    serviceGetBattles fs = .ok (battlesListEnvelope (battlesAfterFilters fs))
    ∧ (battlesListEnvelope (battlesAfterFilters fs)).isArr = false
    ∧ hasField (battlesListEnvelope (battlesAfterFilters fs)) "success" = true
    ∧ hasField (battlesListEnvelope (battlesAfterFilters fs)) "data" = true
    ∧ hasField (battlesListEnvelope (battlesAfterFilters fs)) "meta" = true
    ∧ serviceGetTrending
        = .ok (dataEnvelope (.jarr (mockTrendingList.map battleJson)))
    ∧ (dataEnvelope (.jarr (mockTrendingList.map battleJson))).isArr = false
    ∧ hasField (dataEnvelope (.jarr (mockTrendingList.map battleJson))) "success" = true
    ∧ hasField (dataEnvelope (.jarr (mockTrendingList.map battleJson))) "data" = true
    ∧ hasField (dataEnvelope (.jarr (mockTrendingList.map battleJson))) "meta" = false :=
  ⟨rfl, rfl, rfl, rfl, rfl, rfl, rfl, rfl, rfl, rfl⟩

/-- Witness for C5 at a concrete configuration and submission. -/
theorem claim5_constraint_rejections_witness :
    ((submitVote defaultLedgerConfig witBattles witElems emptyLedger 1 1 witVid 0).1
          = .rejected .battleClosed
        ↔ battleOpen witBattles 1 0 = false)
    ∧ (battleOpen witBattles 1 0 = true →
        ((submitVote defaultLedgerConfig witBattles witElems emptyLedger 1 1 witVid 0).1
            = .rejected .invalidElement
          ↔ elementBelongs witElems 1 1 = false))
    ∧ (battleOpen witBattles 1 0 = true → elementBelongs witElems 1 1 = true →
        (submitVote defaultLedgerConfig witBattles witElems emptyLedger 1 1 witVid 0).1
            ≠ .rejected .battleClosed
        ∧ (submitVote defaultLedgerConfig witBattles witElems emptyLedger 1 1 witVid 0).1
            ≠ .rejected .invalidElement) :=
  claim5_constraint_rejections defaultLedgerConfig witBattles witElems emptyLedger 1 1 witVid 0

/-- Witness for C9 at the empty filter object. -/
theorem claim9_envelopes_not_arrays_witness :
    serviceGetBattles noParams = .ok (battlesListEnvelope (battlesAfterFilters noParams))
    ∧ (battlesListEnvelope (battlesAfterFilters noParams)).isArr = false
    ∧ hasField (battlesListEnvelope (battlesAfterFilters noParams)) "success" = true
    ∧ hasField (battlesListEnvelope (battlesAfterFilters noParams)) "data" = true
    ∧ hasField (battlesListEnvelope (battlesAfterFilters noParams)) "meta" = true
    ∧ serviceGetTrending
        = .ok (dataEnvelope (.jarr (mockTrendingList.map battleJson)))
    ∧ (dataEnvelope (.jarr (mockTrendingList.map battleJson))).isArr = false
    ∧ hasField (dataEnvelope (.jarr (mockTrendingList.map battleJson))) "success" = true
    ∧ hasField (dataEnvelope (.jarr (mockTrendingList.map battleJson))) "data" = true
    ∧ hasField (dataEnvelope (.jarr (mockTrendingList.map battleJson))) "meta" = false :=
  claim9_envelopes_not_arrays noParams

/-- Witness for C10 at a concrete battle identifier of no existing
battle. -/
theorem claim10_battle_url_routing_witness :
    serviceGetBattle "42" = .ok (battlesListEnvelope mockBattlesList) :=
  claim10_battle_url_routing.2 "42"
